import Mathlib

/-!
Shallow embedding of the campus-network auto-login plugin (`src/main.py`)
and verification of the claims about its prober, authenticator, monitor
loop and controller.

The embedding follows the Python source function by function:

* `run_ping` embeds `Plugin._run_ping` (the subprocess outcome is made an
  explicit `PingOutcome` argument: a finished `ping` process with an exit
  code, a deadline expiry, or any other operational error).
* `make_http_request` embeds the request-construction part of
  `Plugin._make_http_request`; the network side of that function is an
  explicit `transport` argument of `do_login`.
* `do_login` embeds `Plugin.do_login`; the current epoch time in
  milliseconds is an explicit `nowMs` argument, and the executor call
  `loop.run_in_executor(None, self._make_http_request, method, url, params)`
  is recorded as an `ExecutorCall` so that theorems can talk about the
  request that was (or was not) issued.
* `monitorCycle` / `pingMonitor` embed the body of `Plugin._ping_monitor`:
  every cycle's probe outcome (or an uncaught fault, or a cancellation)
  is an input, and the observable effects (emitted notifications, login
  invocations, sleeps) are collected in a trace.  The `try` block of the
  source wraps the whole `while True` loop, which the embedding mirrors:
  a fault or a cancellation ends the recursion.
* `start_ping_monitor` / `ctrlStep` embed `Plugin.start_ping_monitor`
  together with task completion, tracking how many live monitor tasks a
  sequence of controller events leaves behind.
-/

namespace SchoolNet

/-- Constant User-Agent header value (`Plugin.USER_AGENT`). -/
def USER_AGENT : String := "Mozilla/5.0"

/-- Constant HTTP timeout in seconds (`Plugin.HTTP_TIMEOUT`). -/
def HTTP_TIMEOUT : Nat := 10

/-- Default remediation endpoint address (`Plugin.DEFAULT_LOGIN_IP`). -/
def DEFAULT_LOGIN_IP : String := "221.1.64.43"

/-! ### Prober (`Plugin._run_ping`) -/

/-- Outcome of the underlying `ping` subprocess as observed by
`Plugin._run_ping`: the process finished with exit code `rc` within the
deadline, or `asyncio.wait_for` expired (`asyncio.TimeoutError`), or some
other operational error was raised with description `msg`. -/
inductive PingOutcome where
  | completed (rc : Int)
  | timedOut
  | failed (msg : String)
deriving DecidableEq

/-- Result dictionary returned by `Plugin._run_ping`. -/
structure PingResult where
  host : String
  success : Bool
  rc : Int
  error : Option String
deriving DecidableEq

/-- Shallow embedding of `Plugin._run_ping`: a total function from the
subprocess outcome to a `PingResult`, mirroring the `try`/`except` arms of
the source (success iff exit code 0; `"timeout"` on deadline expiry; the
error description otherwise). -/
def run_ping (host : String) (outcome : PingOutcome) : PingResult :=
  match outcome with
  | .completed rc => { host := host, success := rc == 0, rc := rc, error := none }
  | .timedOut => { host := host, success := false, rc := -1, error := some "timeout" }
  | .failed msg => { host := host, success := false, rc := -1, error := some msg }

/-! ### Python dict helpers (`dict.get`, truthiness, `dict.__setitem__`) -/

/-- Python `d.get(k)`: first binding of `k`, if any. -/
def dictGet (ps : List (String × String)) (k : String) : Option String :=
  (ps.find? (fun p => p.1 == k)).map (fun p => p.2)

/-- Python `d.get(k)` coerced through truthiness: a missing key and an
empty string are both falsy, so both map to `""`. -/
def dictGetD (ps : List (String × String)) (k : String) : String :=
  (dictGet ps k).getD ""

/-- Python `k in d`. -/
def dictHasKey (ps : List (String × String)) (k : String) : Bool :=
  ps.any (fun p => p.1 == k)

/-- Python `d[k] = v`: replace the binding if the key is present,
otherwise append it. -/
def dictSet (ps : List (String × String)) (k v : String) : List (String × String) :=
  if dictHasKey ps k then ps.map (fun p => if p.1 == k then (k, v) else p)
  else ps ++ [(k, v)]

/-! ### URL encoding (`urllib.parse.urlencode` with `quote_plus`) -/

/-- Uppercase hexadecimal digit for `n < 16`. -/
def hexUpperDigit (n : Nat) : Char :=
  if n < 10 then Char.ofNat (48 + n) else Char.ofNat (55 + n)

/-- Percent-escape of a single byte, `%XX` with uppercase hex. -/
def percentEncodeByte (n : Nat) : String :=
  String.mk ['%', hexUpperDigit (n / 16), hexUpperDigit (n % 16)]

/-- Bytes `urllib.parse.quote` never escapes (ASCII letters, digits,
`_`, `.`, `-`, `~`). -/
def alwaysSafeByte (n : Nat) : Bool :=
  (65 ≤ n && n ≤ 90) || (97 ≤ n && n ≤ 122) || (48 ≤ n && n ≤ 57) ||
  n == 95 || n == 46 || n == 45 || n == 126

/-- Embedding of `urllib.parse.quote_plus(s, safe="")` over the UTF-8
bytes of `s`: space becomes `+`, always-safe bytes stay, everything else
is percent-escaped. -/
def quote_plus (s : String) : String :=
  String.join (s.toUTF8.toList.map (fun b =>
    let n := b.toNat
    if n == 32 then "+"
    else if alwaysSafeByte n then String.singleton (Char.ofNat n)
    else percentEncodeByte n))

/-- Embedding of `urllib.parse.urlencode(params)`: `k=v` pairs joined by
`&`, keys and values quoted by `quote_plus`. -/
def urlencode (ps : List (String × String)) : String :=
  String.intercalate "&" (ps.map (fun p => quote_plus p.1 ++ "=" ++ quote_plus p.2))

/-! ### Request construction (`Plugin._make_http_request`) -/

/-- The request `Plugin._make_http_request` hands to `urllib`: either a
GET with the parameters encoded into the query string, or a POST with the
parameters encoded into the body and a form content-type. -/
inductive HttpRequest where
  | get (fullUrl : String) (headers : List (String × String))
  | post (url : String) (data : String) (headers : List (String × String))
deriving DecidableEq

/-- Request-construction part of `Plugin._make_http_request`: the source
branches on `method == "GET"` and treats every other method as POST. -/
def make_http_request (method url : String) (ps : List (String × String)) : HttpRequest :=
  if method == "GET" then
    .get (url ++ "?" ++ urlencode ps) [("User-Agent", USER_AGENT)]
  else
    .post url (urlencode ps)
      [("Content-Type", "application/x-www-form-urlencoded"), ("User-Agent", USER_AGENT)]

/-! ### Authenticator (`Plugin.do_login`) -/

/-- The slice of the configuration dictionary `Plugin.do_login` reads.
`method` is optional because the source defaults it with
`cfg.get("method", "GET")`. -/
structure LoginConfig where
  login_ip : String
  use_https : Bool
  login_path : String
  method : Option String
  params : List (String × String)
  success_check_string : String
deriving DecidableEq

/-- Response dictionary produced by `Plugin._make_http_request`
(`status`, `body`, optional `error`; transport failures are encoded with
`status = -1` exactly as in the source's `except` arms). -/
structure HttpResponse where
  status : Int
  body : String
  error : Option String
deriving DecidableEq

/-- Result dictionary returned by `Plugin.do_login`. -/
structure LoginResult where
  success : Bool
  status : Int
  body : String
  error : Option String
deriving DecidableEq

/-- Arguments of the executor call
`loop.run_in_executor(None, self._make_http_request, method, url, params)`. -/
structure ExecutorCall where
  method : String
  url : String
  params : List (String × String)
deriving DecidableEq

/-- Python `s.upper()`: uppercase every character (the configured method
strings are ASCII). -/
def pyUpper (s : String) : String :=
  String.mk (s.data.map Char.toUpper)

/-- Embedding of `Plugin._build_login_url`. -/
def build_login_url (cfg : LoginConfig) : String :=
  (if cfg.use_https then "https" else "http") ++ "://" ++ cfg.login_ip ++ cfg.login_path

/-- Substring check over character lists (Python `needle in hay`),
built on `List.isPrefixOf`. -/
def infixCheck (n : List Char) : List Char → Bool
  | [] => n.isPrefixOf []
  | c :: t => n.isPrefixOf (c :: t) || infixCheck n t

/-- Python `needle in hay` on strings: verbatim, case-sensitive
substring containment. -/
def strContains (needle hay : String) : Bool :=
  infixCheck needle.data hay.data

/-- Shallow embedding of `Plugin.do_login`.  `nowMs` is the current epoch
time in milliseconds (`time.time() * 1000`), `transport` the network
effect of `_make_http_request`.  Returns the `LoginResult` together with
the executor call that was issued, or `none` when validation failed
before any request was made. -/
def do_login (cfg : LoginConfig) (nowMs : Nat)
    (transport : ExecutorCall → HttpResponse) : LoginResult × Option ExecutorCall :=
  if dictGetD cfg.params "DDDDD" = "" then
    ({ success := false, status := -1, body := "", error := some "Student ID not configured" },
      none)
  else if dictGetD cfg.params "upass" = "" then
    ({ success := false, status := -1, body := "", error := some "Password not configured" },
      none)
  else
    let url := build_login_url cfg
    let method := pyUpper (cfg.method.getD "GET")
    let params := dictSet cfg.params "v" (Nat.repr (nowMs % 10000))
    let call : ExecutorCall := { method := method, url := url, params := params }
    let res := transport call
    let status := res.status
    let body := res.body
    let success :=
      if status == 200 then
        if cfg.success_check_string != "" then strContains cfg.success_check_string body
        else true
      else false
    ({ success := success, status := status, body := body.take 1024, error := res.error },
      some call)

/-! ### Monitor loop (`Plugin._ping_monitor`) -/

/-- The configuration values one cycle of `Plugin._ping_monitor` reads
(`consecutive_failures_threshold`, `ping_interval_sec`,
`backoff_attempt_sec`). -/
structure MonCfg where
  threshold : Nat
  interval : Nat
  backoff : Nat
deriving DecidableEq

/-- What the environment does to one iteration of the monitor loop: the
probe completes with outcome `ok`, or an uncaught exception is raised
somewhere in the cycle, or the task is cancelled. -/
inductive CycleInput where
  | probe (ok : Bool)
  | fault
  | cancel
deriving DecidableEq

/-- Observable effects of the monitor loop: a `ping_status` notification
(with the success flag and the failure counter it carries), a call to
`Plugin.do_login`, a sleep of a given number of seconds, and the error
log line of the outer `except Exception` handler. -/
inductive Action where
  | emitPing (ok : Bool) (failures : Nat)
  | login
  | sleep (sec : Nat)
  | logError
deriving DecidableEq

/-- How a run of the monitor loop ended: cancelled, terminated by the
outer `except Exception` handler, or still running when the supplied
inputs ran out (carrying the current failure counter). -/
inductive LoopExit where
  | cancelled
  | faulted
  | ranOut (failures : Nat)
deriving DecidableEq

/-- One normal iteration of the `while True` body of
`Plugin._ping_monitor`, given the current failure counter and the probe
outcome: returns the new counter and the effects of the iteration, in
source order (emit, then on threshold `do_login` plus backoff sleep, then
the interval sleep). -/
def monitorCycle (cfg : MonCfg) (failures : Nat) (ok : Bool) : Nat × List Action :=
  if ok then
    (0, [.emitPing true 0, .sleep cfg.interval])
  else
    let f := failures + 1
    if cfg.threshold ≤ f then
      (0, [.emitPing false f, .login, .sleep cfg.backoff, .sleep cfg.interval])
    else
      (f, [.emitPing false f, .sleep cfg.interval])

/-- Shallow embedding of `Plugin._ping_monitor`.  The `try` block of the
source wraps the whole `while True` loop, so a cancellation ends the
function silently and an uncaught fault logs the error, sleeps 5 seconds
and ends the function: in both cases the remaining inputs are never
processed. -/
def pingMonitor (cfg : MonCfg) : Nat → List CycleInput → List Action × LoopExit
  | f, [] => ([], .ranOut f)
  | _, .cancel :: _ => ([], .cancelled)
  | _, .fault :: _ => ([.logError, .sleep 5], .faulted)
  | f, .probe ok :: rest =>
    let step := monitorCycle cfg f ok
    let next := pingMonitor cfg step.1 rest
    (step.2 ++ next.1, next.2)

/-- Failure-counter values at every iteration boundary (before the first
cycle, between cycles, and after the last) along a run of probe
outcomes. -/
def monitorStates (cfg : MonCfg) : Nat → List Bool → List Nat
  | f, [] => [f]
  | f, ok :: rest => f :: monitorStates cfg (monitorCycle cfg f ok).1 rest

/-- Number of `do_login` invocations in a trace. -/
def countLogins : List Action → Nat
  | [] => 0
  | a :: rest => (if a = .login then 1 else 0) + countLogins rest

/-- Seconds one action sleeps. -/
def sleepOf : Action → Nat
  | .sleep s => s
  | _ => 0

/-- Total seconds slept in a trace. -/
def sleepTotal : List Action → Nat
  | [] => 0
  | a :: rest => sleepOf a + sleepTotal rest

/-! ### Controller (`Plugin.start_ping_monitor` and task liveness) -/

/-- An `asyncio.Task` as the controller observes it: only its
done-ness. -/
structure TaskHandle where
  done : Bool
deriving DecidableEq

/-- The plugin's task state: the `_monitor_task` slot and the number of
monitor-loop instances currently alive in the process. -/
structure PluginState where
  monitorTask : Option TaskHandle
  activeLoops : Nat
deriving DecidableEq

/-- Embedding of `Plugin.start_ping_monitor`: if a live (not done) task
is already held, log and return without creating anything; otherwise
create a fresh live task (one more active loop instance). -/
def start_ping_monitor (s : PluginState) : PluginState :=
  match s.monitorTask with
  | some t =>
    if t.done then { monitorTask := some { done := false }, activeLoops := s.activeLoops + 1 }
    else s
  | none => { monitorTask := some { done := false }, activeLoops := s.activeLoops + 1 }

/-- Controller-level events: a `start_ping_monitor` call, or the held
task finishing (loop return or cancellation completing). -/
inductive CtrlEvent where
  | start
  | finish
deriving DecidableEq

/-- One controller transition. -/
def ctrlStep (s : PluginState) : CtrlEvent → PluginState
  | .start => start_ping_monitor s
  | .finish =>
    match s.monitorTask with
    | some t =>
      if t.done then s
      else { monitorTask := some { done := true }, activeLoops := s.activeLoops - 1 }
    | none => s

/-- Process start state: no task, no live loop. -/
def initState : PluginState := { monitorTask := none, activeLoops := 0 }

/-- Number of live tasks the `_monitor_task` slot can account for: one if
it holds a not-done task, zero otherwise. -/
def liveCount (s : PluginState) : Nat :=
  match s.monitorTask with
  | some t => if t.done then 0 else 1
  | none => 0

/-- Run a sequence of controller events from the start state. -/
def runCtrl (evs : List CtrlEvent) : PluginState := evs.foldl ctrlStep initState

/-! ### Decimal digit strings (`str(...)` on a nonnegative integer)

The volatile `v` parameter is `str(int(time.time() * 1000) % 10000)`,
i.e. `Nat.repr` in the embedding.  To reason about when two such strings
differ we relate `Nat.repr` to a structural digit-list function and prove
it injective via a decimal-evaluation round trip. -/

/-- Decimal digit characters of `n`, most significant first. -/
def digitsRec (n : Nat) : List Char :=
  if h : n / 10 = 0 then [Nat.digitChar (n % 10)]
  else digitsRec (n / 10) ++ [Nat.digitChar (n % 10)]
decreasing_by
  exact Nat.div_lt_self (by omega) (by omega)

/-- Left-to-right decimal evaluation of a character list, starting from
an accumulator. -/
def decVal : Nat → List Char → Nat
  | a, [] => a
  | a, c :: cs => decVal (a * 10 + (c.toNat - 48)) cs

/-! ## Support lemmas -/

/-- The Boolean substring check agrees with `List.IsInfix`. -/
theorem infixCheck_iff (n : List Char) : ∀ h, infixCheck n h = true ↔ n <:+: h
  | [] => by
    simp [infixCheck, List.isPrefixOf_iff_prefix, List.prefix_nil, List.infix_nil]
  | c :: t => by
    simp [infixCheck, List.isPrefixOf_iff_prefix, infixCheck_iff n t,
      List.infix_cons_iff]

/-- `strContains` is verbatim substring containment of the character
data. -/
theorem strContains_iff (needle hay : String) :
    strContains needle hay = true ↔ needle.data <:+: hay.data :=
  infixCheck_iff needle.data hay.data

/-- Counting logins distributes over trace concatenation. -/
theorem countLogins_append (a b : List Action) :
    countLogins (a ++ b) = countLogins a + countLogins b := by
  induction a with
  | nil => simp [countLogins]
  | cons x rest ih => simp [countLogins, ih]; omega

/-- A cycle keeps the failure counter below a positive threshold. -/
theorem monitorCycle_lt (cfg : MonCfg) (ht : 1 ≤ cfg.threshold) (f : Nat)
    (hf : f < cfg.threshold) (ok : Bool) : (monitorCycle cfg f ok).1 < cfg.threshold := by
  cases ok <;> simp [monitorCycle] <;> (try split) <;> omega

/-- Running `k` consecutive failed probes strictly below the threshold
performs no login and advances the counter by exactly `k`. -/
theorem run_fail_below (cfg : MonCfg) :
    ∀ (k f : Nat), f + k < cfg.threshold →
      countLogins (pingMonitor cfg f (List.replicate k (.probe false))).1 = 0 ∧
      (pingMonitor cfg f (List.replicate k (.probe false))).2 = .ranOut (f + k) := by
  intro k
  induction k with
  | zero => intro f h; simp [pingMonitor, countLogins]
  | succ k ih =>
    intro f h
    have hlt : ¬ cfg.threshold ≤ f + 1 := by omega
    have hrec := ih (f + 1) (by omega)
    simp only [List.replicate_succ, pingMonitor, monitorCycle, if_neg hlt,
      Bool.false_eq_true, if_false, countLogins_append] at hrec ⊢
    refine ⟨?_, ?_⟩
    · simp [countLogins, hrec.1]
    · rw [hrec.2]
      congr 1
      omega

/-- Running exactly enough consecutive failed probes to reach the
threshold performs exactly one login (on the last of them) and leaves the
counter reset to zero. -/
theorem run_fail_trigger (cfg : MonCfg) :
    ∀ (k f : Nat), 1 ≤ k → f + k = cfg.threshold →
      countLogins (pingMonitor cfg f (List.replicate k (.probe false))).1 = 1 ∧
      (pingMonitor cfg f (List.replicate k (.probe false))).2 = .ranOut 0 := by
  intro k
  induction k with
  | zero => intro f h; omega
  | succ k ih =>
    intro f _ h
    cases k with
    | zero =>
      have htr : cfg.threshold ≤ f + 1 := by omega
      simp [pingMonitor, monitorCycle, if_pos htr, countLogins]
    | succ k =>
      have hlt : ¬ cfg.threshold ≤ f + 1 := by omega
      have hrec := ih (f + 1) (by omega) (by omega)
      simp only [List.replicate_succ, pingMonitor, monitorCycle, if_neg hlt,
        Bool.false_eq_true, if_false, countLogins_append] at hrec ⊢
      refine ⟨?_, hrec.2⟩
      simp [countLogins, hrec.1]

/-- Every counter value at an iteration boundary stays below a positive
threshold. -/
theorem monitorStates_lt (cfg : MonCfg) (ht : 1 ≤ cfg.threshold) :
    ∀ (probes : List Bool) (f : Nat), f < cfg.threshold →
      ∀ g ∈ monitorStates cfg f probes, g < cfg.threshold := by
  intro probes
  induction probes with
  | nil =>
    intro f hf g hg
    simp [monitorStates] at hg
    omega
  | cons ok rest ih =>
    intro f hf g hg
    simp only [monitorStates, List.mem_cons] at hg
    rcases hg with rfl | hg
    · exact hf
    · exact ih _ (monitorCycle_lt cfg ht f hf ok) g hg

/-- Controller invariant: the live-loop count always equals what the
`_monitor_task` slot accounts for. -/
theorem ctrlStep_inv (s : PluginState) (e : CtrlEvent)
    (h : s.activeLoops = liveCount s) :
    (ctrlStep s e).activeLoops = liveCount (ctrlStep s e) := by
  rcases s with ⟨task, n⟩
  rcases task with - | ⟨⟨d⟩⟩
  · cases e <;> simp [ctrlStep, start_ping_monitor, liveCount] at h ⊢ <;> omega
  · cases d <;> cases e <;>
      simp [ctrlStep, start_ping_monitor, liveCount] at h ⊢ <;> omega

/-- The controller invariant holds along any event sequence. -/
theorem foldl_ctrl_inv :
    ∀ (evs : List CtrlEvent) (s : PluginState), s.activeLoops = liveCount s →
      (evs.foldl ctrlStep s).activeLoops = liveCount (evs.foldl ctrlStep s) := by
  intro evs
  induction evs with
  | nil => intro s h; simpa using h
  | cons e rest ih => intro s h; exact ih _ (ctrlStep_inv s e h)

/-- The slot accounts for at most one live task. -/
theorem liveCount_le_one (s : PluginState) : liveCount s ≤ 1 := by
  rcases s with ⟨_ | ⟨d⟩, n⟩
  · simp [liveCount]
  · simp [liveCount]; split <;> omega

/-- Trailing accumulator of `Nat.toDigitsCore` factors out as a list
append. -/
theorem toDigitsCore_append (b : Nat) :
    ∀ (f n : Nat) (ds : List Char),
      Nat.toDigitsCore b f n ds = Nat.toDigitsCore b f n [] ++ ds := by
  intro f
  induction f with
  | zero => intro n ds; simp [Nat.toDigitsCore]
  | succ f ih =>
    intro n ds
    simp only [Nat.toDigitsCore]
    by_cases h : n / b = 0
    · simp [h]
    · simp only [h, if_false]
      rw [ih (n / b) (Nat.digitChar (n % b) :: ds), ih (n / b) [Nat.digitChar (n % b)]]
      simp

/-- Unfolding of `digitsRec` for one-digit numbers. -/
theorem digitsRec_base (n : Nat) (h : n / 10 = 0) :
    digitsRec n = [Nat.digitChar (n % 10)] := by
  rw [digitsRec, dif_pos h]

/-- Unfolding of `digitsRec` for multi-digit numbers. -/
theorem digitsRec_step (n : Nat) (h : ¬ n / 10 = 0) :
    digitsRec n = digitsRec (n / 10) ++ [Nat.digitChar (n % 10)] := by
  rw [digitsRec]
  rw [dif_neg h]

/-- With enough fuel, `Nat.toDigitsCore` base 10 computes `digitsRec`. -/
theorem toDigitsCore_eq_digitsRec :
    ∀ (f n : Nat), n < f → ∀ ds, Nat.toDigitsCore 10 f n ds = digitsRec n ++ ds := by
  intro f
  induction f with
  | zero => intro n h; omega
  | succ f ih =>
    intro n h ds
    simp only [Nat.toDigitsCore]
    by_cases h10 : n / 10 = 0
    · rw [if_pos h10, digitsRec_base n h10]
      simp
    · rw [if_neg h10]
      have hlt : n / 10 < f := by
        have : n / 10 < n := Nat.div_lt_self (by omega) (by omega)
        omega
      rw [ih (n / 10) hlt (Nat.digitChar (n % 10) :: ds), digitsRec_step n h10]
      simp

/-- `Nat.repr` is the string of `digitsRec`. -/
theorem repr_eq_digitsRec (n : Nat) : Nat.repr n = (digitsRec n).asString := by
  show (Nat.toDigitsCore 10 (n + 1) n []).asString = (digitsRec n).asString
  rw [toDigitsCore_eq_digitsRec (n + 1) n (Nat.lt_succ_self n) []]
  simp

/-- Evaluation of the empty digit list. -/
theorem decVal_nil (a : Nat) : decVal a [] = a := rfl

/-- One step of decimal evaluation. -/
theorem decVal_cons (a : Nat) (c : Char) (cs : List Char) :
    decVal a (c :: cs) = decVal (a * 10 + (c.toNat - 48)) cs := rfl

/-- Decimal evaluation splits over append. -/
theorem decVal_append (ys : List Char) :
    ∀ (xs : List Char) (a : Nat), decVal a (xs ++ ys) = decVal (decVal a xs) ys := by
  intro xs
  induction xs with
  | nil => intro a; rfl
  | cons c cs ih =>
    intro a
    rw [List.cons_append, decVal_cons, decVal_cons]
    exact ih _

/-- Code point of a decimal digit character. -/
theorem digitChar_toNat : ∀ m, m < 10 → (Nat.digitChar m).toNat = 48 + m := by decide

/-- Decimal evaluation of `digitsRec n` recovers `n`. -/
theorem decVal_digitsRec (n : Nat) :
    ∀ a, decVal a (digitsRec n) = a * 10 ^ (digitsRec n).length + n := by
  induction n using Nat.strong_induction_on with
  | _ n ih =>
    intro a
    by_cases h : n / 10 = 0
    · have hd := digitChar_toNat (n % 10) (by omega)
      rw [digitsRec_base n h]
      rw [decVal_cons, decVal_nil, hd]
      simp only [List.length_cons, List.length_nil, pow_one, zero_add]
      omega
    · have hlt : n / 10 < n := Nat.div_lt_self (by omega) (by omega)
      have hd := digitChar_toNat (n % 10) (by omega)
      rw [digitsRec_step n h, decVal_append, ih (n / 10) hlt a]
      rw [decVal_cons, decVal_nil, hd]
      simp only [List.length_append, List.length_cons, List.length_nil, zero_add, pow_succ]
      have hdm : 10 * (n / 10) + n % 10 = n := Nat.div_add_mod n 10
      have h48 : 48 + n % 10 - 48 = n % 10 := by omega
      rw [h48]
      calc (a * 10 ^ (digitsRec (n / 10)).length + n / 10) * 10 + n % 10
          = a * (10 ^ (digitsRec (n / 10)).length * 10) + (10 * (n / 10) + n % 10) := by
              ring
        _ = a * (10 ^ (digitsRec (n / 10)).length * 10) + n := by rw [hdm]

/-- Structural decimal digit lists are injective in the number. -/
theorem digitsRec_inj (a b : Nat) (h : digitsRec a = digitsRec b) : a = b := by
  have ha := decVal_digitsRec a 0
  have hb := decVal_digitsRec b 0
  rw [h] at ha
  simp only [Nat.zero_mul, Nat.zero_add] at ha hb
  omega

/-- `Nat.repr` is injective: distinct naturals have distinct decimal
strings. -/
theorem repr_inj (a b : Nat) (h : Nat.repr a = Nat.repr b) : a = b := by
  rw [repr_eq_digitsRec, repr_eq_digitsRec] at h
  have hdata := congrArg String.data h
  simp only [List.asString] at hdata
  exact digitsRec_inj a b hdata

/-- Unfolding of `do_login` once credential validation has passed. -/
theorem do_login_valid (cfg : LoginConfig) (nowMs : Nat)
    (transport : ExecutorCall → HttpResponse)
    (hd : dictGetD cfg.params "DDDDD" ≠ "") (hp : dictGetD cfg.params "upass" ≠ "") :
    do_login cfg nowMs transport =
      (let call : ExecutorCall :=
        { method := pyUpper (cfg.method.getD "GET"), url := build_login_url cfg,
          params := dictSet cfg.params "v" (Nat.repr (nowMs % 10000)) }
       let res := transport call
       ({ success :=
            if res.status == 200 then
              if cfg.success_check_string != "" then
                strContains cfg.success_check_string res.body
              else true
            else false,
          status := res.status, body := res.body.take 1024, error := res.error },
        some call)) := by
  unfold do_login
  rw [if_neg hd, if_neg hp]

/-! ## Claims -/

/-- Claim C1 (code-bug evidence): in `Plugin._ping_monitor` the
`except Exception` handler sits outside the `while True` loop, so an
uncaught fault in one iteration logs the error, sleeps the short fixed
interval (5 s) and then lets the monitor task terminate: the supplied
subsequent iteration (a failing probe) is never executed, contrary to
the claim that the loop does not terminate and probing resumes with a
subsequent iteration. -/
theorem c1_fault_terminates_monitor :
    pingMonitor { threshold := 3, interval := 60, backoff := 60 } 0
      [.fault, .probe false] = ([.logError, .sleep 5], .faulted) := rfl

/-- Claim C4: for every threshold `t ≥ 1`, running `t` consecutive
failed probes from a zero counter invokes the authenticator exactly once
— in the iteration of the `t`-th failure, since every shorter failure
run performs no login and just advances the counter — and the counter is
reset to 0 in the triggering cycle itself. -/
theorem c4_threshold_triggers_exactly_once (cfg : MonCfg) (ht : 1 ≤ cfg.threshold) :
    countLogins (pingMonitor cfg 0 (List.replicate cfg.threshold (.probe false))).1 = 1 ∧
    (pingMonitor cfg 0 (List.replicate cfg.threshold (.probe false))).2 = .ranOut 0 ∧
    (∀ k, k < cfg.threshold →
      countLogins (pingMonitor cfg 0 (List.replicate k (.probe false))).1 = 0 ∧
      (pingMonitor cfg 0 (List.replicate k (.probe false))).2 = .ranOut k) ∧
    (∀ f, cfg.threshold ≤ f + 1 →
      (monitorCycle cfg f false).1 = 0 ∧ countLogins (monitorCycle cfg f false).2 = 1) := by
  refine ⟨(run_fail_trigger cfg cfg.threshold 0 ht (by omega)).1,
    (run_fail_trigger cfg cfg.threshold 0 ht (by omega)).2, ?_, ?_⟩
  · intro k hk
    have h := run_fail_below cfg k 0 (by omega)
    simpa using h
  · intro f hf
    refine ⟨by simp [monitorCycle, if_pos hf], ?_⟩
    simp [monitorCycle, if_pos hf, countLogins]

/-- Witness for C4 at threshold 3: one login after three straight
failures, none after two, counter back at 0, and the triggering cycle
itself resets the counter. -/
theorem c4_witness :
    countLogins (pingMonitor { threshold := 3, interval := 60, backoff := 60 } 0
      (List.replicate 3 (.probe false))).1 = 1 ∧
    (pingMonitor { threshold := 3, interval := 60, backoff := 60 } 0
      (List.replicate 3 (.probe false))).2 = .ranOut 0 ∧
    countLogins (pingMonitor { threshold := 3, interval := 60, backoff := 60 } 0
      (List.replicate 2 (.probe false))).1 = 0 ∧
    (monitorCycle { threshold := 3, interval := 60, backoff := 60 } 2 false).1 = 0 :=
  have h := c4_threshold_triggers_exactly_once
    { threshold := 3, interval := 60, backoff := 60 } (by decide)
  ⟨h.1, h.2.1, (h.2.2.1 2 (by decide)).1, (h.2.2.2 2 (by decide)).1⟩

/-- Claim C5: in a triggering cycle the trace after the failure
notification is exactly login, then a backoff sleep, then the interval
sleep — two sequential sleeps whose total is
`backoff_attempt_sec + ping_interval_sec`. -/
theorem c5_trigger_sleeps_backoff_then_interval (cfg : MonCfg) (f : Nat)
    (htrig : cfg.threshold ≤ f + 1) :
    (monitorCycle cfg f false).2 =
      [.emitPing false (f + 1), .login, .sleep cfg.backoff, .sleep cfg.interval] ∧
    sleepTotal (monitorCycle cfg f false).2 = cfg.backoff + cfg.interval := by
  refine ⟨by simp [monitorCycle, if_pos htrig], ?_⟩
  simp [monitorCycle, if_pos htrig, sleepTotal, sleepOf]

/-- Witness for C5 with threshold 1, interval 7 and backoff 9. -/
theorem c5_witness :
    (monitorCycle { threshold := 1, interval := 7, backoff := 9 } 0 false).2 =
      [.emitPing false 1, .login, .sleep 9, .sleep 7] ∧
    sleepTotal (monitorCycle { threshold := 1, interval := 7, backoff := 9 } 0 false).2 =
      9 + 7 :=
  c5_trigger_sleeps_backoff_then_interval
    { threshold := 1, interval := 7, backoff := 9 } 0 (by decide)

/-- Claim C9: with a positive threshold, the failure counter resets to 0
on every successful probe, advances by exactly 1 on a failed probe below
the threshold (with no login), resets to 0 with exactly one login in the
cycle that reaches the threshold, and at every iteration boundary of any
run starting below the threshold it stays strictly below the
threshold. -/
theorem c9_counter_invariant (cfg : MonCfg) (ht : 1 ≤ cfg.threshold) :
    (∀ f, (monitorCycle cfg f true).1 = 0) ∧
    (∀ f, f + 1 < cfg.threshold →
      (monitorCycle cfg f false).1 = f + 1 ∧ countLogins (monitorCycle cfg f false).2 = 0) ∧
    (∀ f, cfg.threshold ≤ f + 1 →
      (monitorCycle cfg f false).1 = 0 ∧ countLogins (monitorCycle cfg f false).2 = 1) ∧
    (∀ (probes : List Bool) (f0 : Nat), f0 < cfg.threshold →
      ∀ g ∈ monitorStates cfg f0 probes, g < cfg.threshold) := by
  refine ⟨fun f => by simp [monitorCycle], ?_, ?_, fun probes f0 h => monitorStates_lt cfg ht probes f0 h⟩
  · intro f hf
    refine ⟨by simp [monitorCycle, if_neg (by omega : ¬ cfg.threshold ≤ f + 1)], ?_⟩
    simp [monitorCycle, if_neg (by omega : ¬ cfg.threshold ≤ f + 1), countLogins]
  · intro f hf
    refine ⟨by simp [monitorCycle, if_pos hf], ?_⟩
    simp [monitorCycle, if_pos hf, countLogins]

/-- Witness for C9 at threshold 3: success resets from 1, the first
failure advances 0 to 1 without login, the third failure resets 2 to 0,
and the boundary value 2 reached by two failures stays below 3. -/
theorem c9_witness :
    (monitorCycle { threshold := 3, interval := 60, backoff := 60 } 1 true).1 = 0 ∧
    (monitorCycle { threshold := 3, interval := 60, backoff := 60 } 0 false).1 = 1 ∧
    (monitorCycle { threshold := 3, interval := 60, backoff := 60 } 2 false).1 = 0 ∧
    (2 : Nat) < 3 :=
  have h := c9_counter_invariant { threshold := 3, interval := 60, backoff := 60 } (by decide)
  ⟨h.1 1, (h.2.1 0 (by decide)).1, (h.2.2.1 2 (by decide)).1,
    h.2.2.2 [false, false] 0 (by decide) 2 (by decide)⟩

/-- Claim C6: `start_ping_monitor` is a no-op while a live (not done)
task is held, and along any sequence of start calls and task completions
the number of live monitor-loop instances never exceeds one. -/
theorem c6_single_monitor_instance :
    (∀ (s : PluginState) (t : TaskHandle),
      s.monitorTask = some t → t.done = false → start_ping_monitor s = s) ∧
    (∀ evs : List CtrlEvent, (runCtrl evs).activeLoops ≤ 1) := by
  constructor
  · intro s t hs hd
    simp [start_ping_monitor, hs, hd]
  · intro evs
    have h := foldl_ctrl_inv evs initState rfl
    calc (runCtrl evs).activeLoops = liveCount (runCtrl evs) := h
      _ ≤ 1 := liveCount_le_one _

/-- Witness for C6: a second start with a live task held changes
nothing, and two starts in a row leave at most one active loop. -/
theorem c6_witness :
    start_ping_monitor { monitorTask := some { done := false }, activeLoops := 1 } =
      { monitorTask := some { done := false }, activeLoops := 1 } ∧
    (runCtrl [.start, .start]).activeLoops ≤ 1 :=
  ⟨c6_single_monitor_instance.1 _ _ rfl rfl,
    c6_single_monitor_instance.2 [.start, .start]⟩

/-- Claim C7: `_run_ping` maps every subprocess outcome to a
`ProbeResult` (the embedding is a total function, mirroring the
exhaustive `except` arms of the source): success holds exactly for a
clean exit code 0 within the deadline, deadline expiry yields a failure
whose diagnostic is `"timeout"`, and any operational error yields a
failure carrying its description. -/
theorem c7_probe_reports_all_outcomes (host : String) (o : PingOutcome) :
    ((run_ping host o).success = true ↔ o = .completed 0) ∧
    (run_ping host o).host = host ∧
    (o = .timedOut → (run_ping host o).error = some "timeout") ∧
    (∀ msg, o = .failed msg →
      (run_ping host o).success = false ∧ (run_ping host o).error = some msg) ∧
    (∀ rc, o = .completed rc → (run_ping host o).error = none ∧ (run_ping host o).rc = rc) := by
  rcases o with rc | - | msg <;> simp [run_ping]

/-- Witness for C7 on a timed-out probe of 8.8.8.8. -/
theorem c7_witness :
    ((run_ping "8.8.8.8" .timedOut).success = true ↔
      (PingOutcome.timedOut = .completed 0)) ∧
    (run_ping "8.8.8.8" .timedOut).error = some "timeout" :=
  have h := c7_probe_reports_all_outcomes "8.8.8.8" .timedOut
  ⟨h.1, h.2.2.1 rfl⟩

/-- Claim C2: for every response the transport returns, `do_login`
reports success exactly when the status is 200 and the configured
success-check string is either empty or occurs verbatim
(case-sensitively) as a substring of the body; every other status means
failure regardless of body.  The reported status is the response
status. -/
theorem c2_login_success_criterion (cfg : LoginConfig) (nowMs : Nat) (resp : HttpResponse)
    (hd : dictGetD cfg.params "DDDDD" ≠ "") (hp : dictGetD cfg.params "upass" ≠ "") :
    ((do_login cfg nowMs (fun _ => resp)).1.success = true ↔
      (resp.status = 200 ∧ (cfg.success_check_string = "" ∨
        cfg.success_check_string.data <:+: resp.body.data))) ∧
    (do_login cfg nowMs (fun _ => resp)).1.status = resp.status := by
  rw [do_login_valid cfg nowMs (fun _ => resp) hd hp]
  refine ⟨?_, rfl⟩
  by_cases hs : resp.status = 200
  · by_cases hc : cfg.success_check_string = ""
    · simp [hs, hc]
    · simp [hs, hc, strContains_iff]
  · simp [hs]

/-- Configuration with both credentials present, used to witness C2. -/
def c2cfg : LoginConfig :=
  { login_ip := "221.1.64.43", use_https := false, login_path := "/drcom/login",
    method := some "GET", params := [("DDDDD", "20230001"), ("upass", "pw")],
    success_check_string := "dr1003" }

/-- Response with status 200 whose body contains the check string. -/
def c2resp : HttpResponse :=
  { status := 200, body := "xx dr1003(1) yy", error := none }

/-- Witness for C2 on a 200 response containing the check string. -/
theorem c2_witness :
    ((do_login c2cfg 5 (fun _ => c2resp)).1.success = true ↔
      (c2resp.status = 200 ∧ (c2cfg.success_check_string = "" ∨
        c2cfg.success_check_string.data <:+: c2resp.body.data))) ∧
    (do_login c2cfg 5 (fun _ => c2resp)).1.status = c2resp.status :=
  c2_login_success_criterion c2cfg 5 c2resp (by decide) (by decide)

/-- Claim C3: whenever the student-id (`DDDDD`) or password (`upass`)
field is empty or missing, `do_login` fails with a missing-credential
error and records no executor call, i.e. issues no network request. -/
theorem c3_missing_credentials_no_request (cfg : LoginConfig) (nowMs : Nat)
    (transport : ExecutorCall → HttpResponse)
    (h : dictGetD cfg.params "DDDDD" = "" ∨ dictGetD cfg.params "upass" = "") :
    (do_login cfg nowMs transport).1.success = false ∧
    (do_login cfg nowMs transport).2 = none ∧
    ((do_login cfg nowMs transport).1.error = some "Student ID not configured" ∨
      (do_login cfg nowMs transport).1.error = some "Password not configured") := by
  by_cases hd : dictGetD cfg.params "DDDDD" = ""
  · unfold do_login
    rw [if_pos hd]
    exact ⟨rfl, rfl, Or.inl rfl⟩
  · have hp : dictGetD cfg.params "upass" = "" := by tauto
    unfold do_login
    rw [if_neg hd, if_pos hp]
    exact ⟨rfl, rfl, Or.inr rfl⟩

/-- Configuration with a missing password, used to witness C3. -/
def c3cfg : LoginConfig :=
  { login_ip := "221.1.64.43", use_https := false, login_path := "/drcom/login",
    method := some "GET", params := [("DDDDD", "20230001"), ("upass", "")],
    success_check_string := "" }

/-- Stub response (never reached) for the C3 witness transport. -/
def c3resp : HttpResponse := { status := 200, body := "", error := none }

/-- Witness for C3 on a configuration whose password is empty. -/
theorem c3_witness :
    (do_login c3cfg 0 (fun _ => c3resp)).1.success = false ∧
    (do_login c3cfg 0 (fun _ => c3resp)).2 = none ∧
    ((do_login c3cfg 0 (fun _ => c3resp)).1.error = some "Student ID not configured" ∨
      (do_login c3cfg 0 (fun _ => c3resp)).1.error = some "Password not configured") :=
  c3_missing_credentials_no_request c3cfg 0 (fun _ => c3resp) (by decide)

/-- Claim C10: the method `do_login` hands to the request builder is the
upper-cased configured method (defaulting to `"GET"` when missing), and
the builder uses the GET query-string encoding exactly when that string
is `"GET"`: any other upper-cased method (POST, PUT, ...) produces the
POST encoding — parameters URL-encoded into the body with the form
content-type. -/
theorem c10_non_get_uses_post_encoding (cfg : LoginConfig) (nowMs : Nat)
    (transport : ExecutorCall → HttpResponse) (call : ExecutorCall)
    (hcall : (do_login cfg nowMs transport).2 = some call) :
    call.method = pyUpper (cfg.method.getD "GET") ∧
    (call.method ≠ "GET" →
      make_http_request call.method call.url call.params =
        .post call.url (urlencode call.params)
          [("Content-Type", "application/x-www-form-urlencoded"), ("User-Agent", USER_AGENT)]) ∧
    (call.method = "GET" →
      make_http_request call.method call.url call.params =
        .get (call.url ++ "?" ++ urlencode call.params) [("User-Agent", USER_AGENT)]) ∧
    (cfg.method = none → call.method = "GET") := by
  by_cases hd : dictGetD cfg.params "DDDDD" = ""
  · exfalso
    unfold do_login at hcall
    rw [if_pos hd] at hcall
    exact Option.noConfusion hcall
  by_cases hp : dictGetD cfg.params "upass" = ""
  · exfalso
    unfold do_login at hcall
    rw [if_neg hd, if_pos hp] at hcall
    exact Option.noConfusion hcall
  rw [do_login_valid cfg nowMs transport hd hp] at hcall
  have hc : call =
      { method := pyUpper (cfg.method.getD "GET"), url := build_login_url cfg,
        params := dictSet cfg.params "v" (Nat.repr (nowMs % 10000)) } :=
    (Option.some.inj hcall).symm
  subst hc
  refine ⟨rfl, ?_, ?_, ?_⟩
  · intro hne
    unfold make_http_request
    rw [if_neg (by simpa using hne)]
  · intro heq
    unfold make_http_request
    rw [if_pos (by simpa using heq)]
  · intro hnone
    simp only [hnone, Option.getD_none]
    decide

/-- Configuration with method `put`, used to witness C10. -/
def c10cfg : LoginConfig :=
  { login_ip := "1.2.3.4", use_https := false, login_path := "/x",
    method := some "put", params := [("DDDDD", "a"), ("upass", "b")],
    success_check_string := "" }

/-- Stub response for the C10 witness transport. -/
def c10resp : HttpResponse := { status := 200, body := "", error := none }

/-- The executor call `do_login` records for `c10cfg` at 5 ms. -/
def c10call : ExecutorCall :=
  { method := "PUT", url := "http://1.2.3.4/x",
    params := [("DDDDD", "a"), ("upass", "b"), ("v", "5")] }

/-- Witness for C10: the configured method `put` is upper-cased and,
being different from `"GET"`, selects the POST body encoding. -/
theorem c10_witness :
    c10call.method = pyUpper (c10cfg.method.getD "GET") ∧
    make_http_request c10call.method c10call.url c10call.params =
      .post c10call.url (urlencode c10call.params)
        [("Content-Type", "application/x-www-form-urlencoded"), ("User-Agent", USER_AGENT)] :=
  have h := c10_non_get_uses_post_encoding c10cfg 5 (fun _ => c10resp) c10call (by decide)
  ⟨h.1, h.2.1 (by decide)⟩

/-- Configuration with both credentials present and no `v` key, used for
the C8 collision and witness. -/
def c8cfg : LoginConfig :=
  { login_ip := "221.1.64.43", use_https := false, login_path := "/drcom/login",
    method := some "GET", params := [("DDDDD", "20230001"), ("upass", "pw")],
    success_check_string := "" }

/-- Stub response for the C8 runs. -/
def c8resp : HttpResponse := { status := 200, body := "", error := none }

/-- Claim C8 counterexample: two login attempts at the distinct epoch
times 0 ms and 10000 ms — consecutive attempts 10 seconds apart — both
send the volatile parameter value `"0"`, so the value does not differ
across every pair of consecutive attempts as the claim states. -/
theorem c8_counterexample :
    (0 : Nat) ≠ 10000 ∧
    (do_login c8cfg 0 (fun _ => c8resp)).2.map (fun c => dictGetD c.params "v") =
      some "0" ∧
    (do_login c8cfg 10000 (fun _ => c8resp)).2.map (fun c => dictGetD c.params "v") =
      some "0" :=
  ⟨by decide, by decide, by decide⟩

/-- Claim C8 as amended: past validation (and with no configured `v`
key) the request's parameter set is exactly the configured params plus
one appended volatile parameter `v` whose value is the decimal string of
the epoch milliseconds modulo 10000 — the configured mapping itself is
untouched, remaining the unchanged prefix — and the value coincides for
attempts whose timestamps are congruent modulo 10000 while differing
whenever they are not. -/
theorem c8_volatile_param_mod10000 (cfg : LoginConfig) (nowMs : Nat)
    (transport : ExecutorCall → HttpResponse)
    (hd : dictGetD cfg.params "DDDDD" ≠ "") (hp : dictGetD cfg.params "upass" ≠ "")
    (hv : dictHasKey cfg.params "v" = false) :
    (do_login cfg nowMs transport).2 =
      some { method := pyUpper (cfg.method.getD "GET"), url := build_login_url cfg,
             params := cfg.params ++ [("v", Nat.repr (nowMs % 10000))] } ∧
    (cfg.params ++ [("v", Nat.repr (nowMs % 10000))]).take cfg.params.length = cfg.params ∧
    (∀ t1 t2 : Nat, t1 % 10000 = t2 % 10000 →
      Nat.repr (t1 % 10000) = Nat.repr (t2 % 10000)) ∧
    (∀ t1 t2 : Nat, t1 % 10000 ≠ t2 % 10000 →
      Nat.repr (t1 % 10000) ≠ Nat.repr (t2 % 10000)) := by
  refine ⟨?_, ?_, ?_, ?_⟩
  · rw [do_login_valid cfg nowMs transport hd hp]
    have hset : dictSet cfg.params "v" (Nat.repr (nowMs % 10000)) =
        cfg.params ++ [("v", Nat.repr (nowMs % 10000))] := by
      rw [dictSet, if_neg (by simp [hv])]
    simp [hset]
  · exact List.take_left cfg.params _
  · intro t1 t2 h
    rw [h]
  · intro t1 t2 h hc
    exact h (repr_inj _ _ hc)

/-- Witness for the amended C8: at 12345 ms the call carries the
configured params plus `v = "2345"`, and the values at 1 ms and 2 ms
differ. -/
theorem c8_witness :
    (do_login c8cfg 12345 (fun _ => c8resp)).2 =
      some { method := pyUpper (c8cfg.method.getD "GET"), url := build_login_url c8cfg,
             params := c8cfg.params ++ [("v", Nat.repr (12345 % 10000))] } ∧
    Nat.repr (1 % 10000) ≠ Nat.repr (2 % 10000) :=
  have h := c8_volatile_param_mod10000 c8cfg 12345 (fun _ => c8resp)
    (by decide) (by decide) (by decide)
  ⟨h.1, h.2.2.2 1 2 (by decide)⟩

end SchoolNet
